import Mathlib

/-!
Verification development for two SageMaker example notebooks:
`Amazon_JumpStart_Text_Classification.ipynb` (JumpStart text classification)
and `tf-resnet-profiling-multi-gpu-multi-node.ipynb` (Debugger profiling).
The notebooks are sequential glue code around an external SDK; we embed
their locally computed values (the model-id filter and deduplication, the
configuration records, the rule-output path) and their observable event
order, and prove the specified properties of those embeddings.
-/

namespace NB

/-- Substring containment on character lists: `containsSub needle hay` is
Python's `needle in hay` for strings, read as character sequences. -/
def containsSub (needle : List Char) : List Char → Bool
  | [] => needle.isEmpty
  | c :: t => needle.isPrefixOf (c :: t) || containsSub needle t

/-- The filter condition of the model-selection cell:
Python `"-tc-" in model["model_id"]`. -/
def hasTc (s : String) : Bool :=
  containsSub "-tc-".data s.data

/-- One record of the downloaded `models_manifest.json`; the notebook reads
only its `model_id` field, so the embedding keeps only that field. -/
structure ManifestEntry where
  model_id : String
deriving DecidableEq

/-- The comprehension
`[model["model_id"] for model in model_list if "-tc-" in model["model_id"]]`. -/
def tc_models_all_versions (model_list : List ManifestEntry) : List String :=
  (model_list.filter (fun model => hasTc model.model_id)).map
    (fun model => model.model_id)

/-- The deduplication loop
`[tc_models.append(model) for model in tc_models_all_versions if model not in tc_models]`
starting from `tc_models = []`: scan left to right, appending each model id
not already present. `acc` is the list built so far. -/
def dedupLoop (acc : List String) : List String → List String
  | [] => acc
  | m :: ms => if m ∈ acc then dedupLoop acc ms else dedupLoop (acc ++ [m]) ms

/-- The `tc_models` list the notebook offers in the dropdown: the filtered
ids, deduplicated by the loop above. -/
def tc_models (model_list : List ManifestEntry) : List String :=
  dedupLoop [] (tc_models_all_versions model_list)

/-- The default model id assigned before the dropdown cell:
`model_id = "tensorflow-tc-bert-en-uncased-L-12-H-768-A-12-2"`. -/
def model_id : String :=
  "tensorflow-tc-bert-en-uncased-L-12-H-768-A-12-2"

/-- The dropdown caption passed as `description=...`. -/
def dropdownDescription : String :=
  "JumpStart Text Classification Models:"

/-- Modelled from the spec: the ipywidgets `Dropdown` widget is external to
the repository. Constructing it with a `value` that is not among `options`
fails (the widget library rejects such a value); otherwise construction
succeeds and yields the widget with the given value and options. -/
structure Dropdown where
  value : String
  options : List String
  description : String
deriving DecidableEq

/-- Modelled from the spec: fallible construction of the external `Dropdown`
widget, `none` exactly when the requested value is not one of the options. -/
def mkDropdown (value : String) (options : List String)
    (description : String) : Option Dropdown :=
  if value ∈ options then some ⟨value, options, description⟩ else none

/-- The first inference sentence, `text1`. -/
def text1 : String :=
  "astonishing ... ( frames ) profound ethical and philosophical questions in the form of dazzling pop entertainment"

/-- The second inference sentence, `text2`. -/
def text2 : String :=
  "simply stupid , irrelevant and deeply , truly , bottomlessly cynical "

/-- Index of the first occurrence of `x` in a list (length of the list when
absent); used to state that deduplication keeps first-occurrence order. -/
def firstIdx (x : String) : List String → Nat
  | [] => 0
  | y :: ys => if y = x then 0 else firstIdx x ys + 1

/-- The new elements the deduplication loop appends after `acc`: the first
occurrences, in order, of the ids of `l` not already in `acc`. -/
def dedupNew (acc : List String) : List String → List String
  | [] => []
  | m :: ms => if m ∈ acc then dedupNew acc ms else m :: dedupNew (acc ++ [m]) ms

theorem dedupLoop_eq_append (l acc : List String) :
    dedupLoop acc l = acc ++ dedupNew acc l := by
  induction l generalizing acc with
  | nil => simp [dedupLoop, dedupNew]
  | cons m ms ih =>
    by_cases h : m ∈ acc
    · simp [dedupLoop, dedupNew, h, ih]
    · simp [dedupLoop, dedupNew, h, ih]

theorem mem_of_mem_dedupNew {x : String} {l acc : List String}
    (h : x ∈ dedupNew acc l) : x ∈ l ∧ x ∉ acc := by
  induction l generalizing acc with
  | nil => simp [dedupNew] at h
  | cons m ms ih =>
    by_cases hm : m ∈ acc
    · simp only [dedupNew, if_pos hm] at h
      have := ih h
      exact ⟨List.mem_cons_of_mem _ this.1, this.2⟩
    · simp only [dedupNew, if_neg hm] at h
      rcases List.mem_cons.mp h with h1 | h2
      · exact ⟨h1 ▸ List.mem_cons_self _ _, h1 ▸ hm⟩
      · have := ih h2
        refine ⟨List.mem_cons_of_mem _ this.1, fun hx => this.2 ?_⟩
        exact List.mem_append.mpr (Or.inl hx)

theorem mem_dedupNew_of_mem {x : String} {l acc : List String}
    (hl : x ∈ l) (hacc : x ∉ acc) : x ∈ dedupNew acc l := by
  induction l generalizing acc with
  | nil => simp at hl
  | cons m ms ih =>
    by_cases hm : m ∈ acc
    · have hxm : x ≠ m := fun h => hacc (h ▸ hm)
      have hxl : x ∈ ms := by
        rcases List.mem_cons.mp hl with h | h
        · exact absurd h hxm
        · exact h
      simp only [dedupNew, if_pos hm]
      exact ih hxl hacc
    · simp only [dedupNew, if_neg hm]
      by_cases hxm : x = m
      · exact hxm ▸ List.mem_cons_self _ _
      · have hxl : x ∈ ms := by
          rcases List.mem_cons.mp hl with h | h
          · exact absurd h hxm
          · exact h
        refine List.mem_cons_of_mem _ (ih hxl ?_)
        intro hx
        rcases List.mem_append.mp hx with h | h
        · exact hacc h
        · exact hxm (List.mem_singleton.mp h)

theorem sublist_dedupNew (l acc : List String) :
    (dedupNew acc l).Sublist l := by
  induction l generalizing acc with
  | nil => simp [dedupNew]
  | cons m ms ih =>
    by_cases hm : m ∈ acc
    · simpa [dedupNew, hm] using (ih acc).trans (List.sublist_cons_self _ _)
    · simpa [dedupNew, hm] using (ih (acc ++ [m])).cons₂ m

theorem firstIdx_cons_self (x : String) (ys : List String) :
    firstIdx x (x :: ys) = 0 := by
  simp [firstIdx]

theorem firstIdx_cons_ne {x y : String} (ys : List String) (h : y ≠ x) :
    firstIdx x (y :: ys) = firstIdx x ys + 1 := by
  simp [firstIdx, h]

theorem pairwise_dedupNew (l acc : List String) :
    (dedupNew acc l).Pairwise (fun a b => firstIdx a l < firstIdx b l) := by
  induction l generalizing acc with
  | nil => simp [dedupNew]
  | cons m ms ih =>
    have transfer :
        ∀ acc2 : List String, m ∈ acc2 →
          (dedupNew acc2 ms).Pairwise
            (fun a b => firstIdx a (m :: ms) < firstIdx b (m :: ms)) := by
      intro acc2 hm2
      refine (ih acc2).imp_of_mem ?_
      intro a b ha hb hlt
      have hna : a ≠ m := fun h =>
        (mem_of_mem_dedupNew ha).2 (h ▸ hm2)
      have hnb : b ≠ m := fun h =>
        (mem_of_mem_dedupNew hb).2 (h ▸ hm2)
      rw [firstIdx_cons_ne ms (fun h => hna h.symm),
        firstIdx_cons_ne ms (fun h => hnb h.symm)]
      omega
    by_cases hm : m ∈ acc
    · simp only [dedupNew, if_pos hm]
      exact transfer acc hm
    · simp only [dedupNew, if_neg hm]
      refine List.Pairwise.cons ?_ ?_
      · intro b hb
        have hnb : b ≠ m := fun h =>
          (mem_of_mem_dedupNew hb).2
            (h ▸ List.mem_append.mpr (Or.inr (List.mem_singleton.mpr rfl)))
        rw [firstIdx_cons_self, firstIdx_cons_ne ms (fun h => hnb h.symm)]
        omega
      · exact transfer (acc ++ [m])
          (List.mem_append.mpr (Or.inr (List.mem_singleton.mpr rfl)))

theorem nodup_dedupNew (l acc : List String) : (dedupNew acc l).Nodup := by
  refine (pairwise_dedupNew l acc).imp ?_
  intro a b hlt
  intro h
  subst h
  omega

theorem tc_models_eq_dedupNew (model_list : List ManifestEntry) :
    tc_models model_list = dedupNew [] (tc_models_all_versions model_list) := by
  simp [tc_models, dedupLoop_eq_append]

theorem mem_tc_models_iff (model_list : List ManifestEntry) (s : String) :
    s ∈ tc_models model_list ↔ s ∈ tc_models_all_versions model_list := by
  rw [tc_models_eq_dedupNew]
  constructor
  · intro h
    exact (mem_of_mem_dedupNew h).1
  · intro h
    exact mem_dedupNew_of_mem h (by simp)

theorem tc_models_all_versions_eq (model_list : List ManifestEntry) :
    tc_models_all_versions model_list =
      (model_list.map (fun m => m.model_id)).filter hasTc := by
  induction model_list with
  | nil => simp [tc_models_all_versions]
  | cons m ms ih =>
    by_cases h : hasTc m.model_id
    · simp [tc_models_all_versions, List.filter_cons, h] at ih ⊢
      exact ih
    · simp [tc_models_all_versions, List.filter_cons, h] at ih ⊢
      exact ih

theorem containsSub_iff (needle hay : List Char) :
    containsSub needle hay = true ↔ ∃ pre post, hay = pre ++ needle ++ post := by
  induction hay with
  | nil =>
    simp only [containsSub, List.isEmpty_iff]
    constructor
    · rintro rfl
      exact ⟨[], [], rfl⟩
    · rintro ⟨pre, post, h⟩
      rcases List.append_eq_nil.mp h.symm with ⟨h1, h2⟩
      exact (List.append_eq_nil.mp h1).2
  | cons c t ih =>
    simp only [containsSub, Bool.or_eq_true]
    constructor
    · rintro (h | h)
      · rcases List.isPrefixOf_iff_prefix.mp h with ⟨post, hpost⟩
        exact ⟨[], post, by simp [hpost]⟩
      · rcases ih.mp h with ⟨pre, post, hp⟩
        exact ⟨c :: pre, post, by simp [hp]⟩
    · rintro ⟨pre, post, hp⟩
      cases pre with
      | nil =>
        exact Or.inl (List.isPrefixOf_iff_prefix.mpr
          ⟨post, by simpa using hp.symm⟩)
      | cons d ds =>
        simp only [List.cons_append, List.cons.injEq] at hp
        exact Or.inr (ih.mpr ⟨ds, post, hp.2⟩)

theorem dedupLoop_of_nodup (l acc : List String)
    (h : (acc ++ l).Nodup) : dedupLoop acc l = acc ++ l := by
  induction l generalizing acc with
  | nil => simp [dedupLoop]
  | cons m ms ih =>
    have hrearr : acc ++ m :: ms = (acc ++ [m]) ++ ms := by simp
    have hmem : m ∉ acc := by
      rcases List.nodup_append.mp h with ⟨_, _, hdisj⟩
      intro hm
      exact hdisj hm (List.mem_cons_self _ _)
    rw [dedupLoop, if_neg hmem, ih (acc ++ [m]) (by rw [← hrearr]; exact h)]
    simp

/-- The claim that the model-selection step is a pass-through of the one
external call it issues, following the spec's words: the offered model list
would equal the downloaded manifest's model ids unchanged, with no local
transformation. Stated for comparison with the source's `tc_models`. -/
def selectionStepPassThrough : Prop :=
  ∀ model_list : List ManifestEntry,
    tc_models model_list = model_list.map (fun m => m.model_id)

/-- A hyperparameter value as the profiling notebook writes one: an integer
or a boolean. -/
inductive HPValue where
  | int (n : Int)
  | bool (b : Bool)
deriving DecidableEq

/-- The cell
`hyperparameters = {'epoch': 5, 'batch_size': 64, 'data_augmentation': True}`. -/
def hyperparameters : List (String × HPValue) :=
  [("epoch", HPValue.int 5),
   ("batch_size", HPValue.int 64),
   ("data_augmentation", HPValue.bool true)]

/-- The inner mpi dictionary of the `distributions` cell. -/
structure MpiOptions where
  enabled : Bool
  processes_per_host : Nat
  custom_mpi_options : String
deriving DecidableEq

/-- The distributed-execution descriptor, `distributions = {"mpi": {...}}`. -/
structure DistributionsDict where
  mpi : MpiOptions
deriving DecidableEq

/-- The `distributions` cell of the profiling notebook. -/
def distributions : DistributionsDict :=
  { mpi :=
      { enabled := true
        processes_per_host := 4
        custom_mpi_options := "-verbose -x HOROVOD_TIMELINE=./hvd_timeline.json -x NCCL_DEBUG=INFO -x OMPI_MCA_btl_vader_single_copy_mechanism=none" } }

/-- One monitoring-rule entry: `Rule.sagemaker(...)` or
`ProfilerRule.sagemaker(...)` with the named built-in check. -/
inductive RuleSpec where
  | sagemakerRule (rname : String)
  | sagemakerProfilerRule (rname : String)
deriving DecidableEq

/-- The `rules` cell of the profiling notebook. -/
def rules : List RuleSpec :=
  [RuleSpec.sagemakerRule "loss_not_decreasing",
   RuleSpec.sagemakerProfilerRule "LowGPUUtilization",
   RuleSpec.sagemakerProfilerRule "ProfilerReport"]

/-- The arguments of the `FrameworkProfile(num_steps=10)` call: only
`num_steps` is passed. -/
structure FrameworkProfile where
  num_steps : Nat
deriving DecidableEq

/-- Modelled from the spec: the external SDK starts detailed framework
profiling at step 5 when a `FrameworkProfile` gives only `num_steps`; the
notebook documents the resulting capture as running "from step 5 to step
15" for `num_steps = 10`. -/
def FrameworkProfile.startStep (_fp : FrameworkProfile) : Nat := 5

/-- Modelled from the spec: the last captured step, the start step plus the
requested number of steps. -/
def FrameworkProfile.endStep (fp : FrameworkProfile) : Nat :=
  fp.startStep + fp.num_steps

/-- The arguments of the `ProfilerConfig(...)` constructor call. -/
structure ProfilerConfigRecord where
  system_monitor_interval_millis : Nat
  framework_profile_params : FrameworkProfile
deriving DecidableEq

/-- The `profiler_config` cell:
`ProfilerConfig(system_monitor_interval_millis=500, framework_profile_params=FrameworkProfile(num_steps=10))`. -/
def profiler_config : ProfilerConfigRecord :=
  { system_monitor_interval_millis := 500
    framework_profile_params := { num_steps := 10 } }

/-- The keyword arguments of the `TensorFlow(...)` estimator constructor in
the profiling notebook; `role` is the value of the external
`sagemaker.get_execution_role()` call. -/
structure TensorFlowArgs where
  role : String
  instance_count : Nat
  instance_type : String
  entry_point : String
  source_dir : String
  framework_version : String
  py_version : String
  profiler_config : ProfilerConfigRecord
  hyperparameters : List (String × HPValue)
  distribution : DistributionsDict
  rules : List RuleSpec
deriving DecidableEq

/-- The `estimator = TensorFlow(...)` cell, as a function of the externally
obtained execution role. -/
def estimator (role : String) : TensorFlowArgs :=
  { role := role
    instance_count := 2
    instance_type := "ml.p3.8xlarge"
    entry_point := "tf-hvd-train.py"
    source_dir := "entry_point"
    framework_version := "2.3.1"
    py_version := "py37"
    profiler_config := profiler_config
    hyperparameters := hyperparameters
    distribution := distributions
    rules := rules }

/-- The cell
`rule_output_path = estimator.output_path + estimator.latest_training_job.job_name + "/rule-output"`,
as a function of the two queried strings. -/
def rule_output_path (output_path job_name : String) : String :=
  output_path ++ job_name ++ "/rule-output"

/-- The observable operations of the profiling notebook, one constructor
per code statement that the temporal claims talk about. -/
inductive PEvent where
  | assignHyperparameters
  | assignDistributions
  | assignRules
  | assignProfilerConfig
  | constructEstimator
  | fitSubmit (wait : Bool)
  | queryRegion
  | queryJobName
  | constructTrainingJobHandle
  | waitForSysProfilingData
  | refreshEventFileList
  | constructTimelineCharts
  | queryRuleOutputPath
deriving DecidableEq

/-- The profiling notebook's cells in source order: the four configuration
assignments, the estimator construction, `estimator.fit(wait=False)`, the
region and job-name queries, the `TrainingJob` handle, the poll for system
profiling data, the timeline-chart cell, and the rule-output-path query. -/
def profilingTrace : List PEvent :=
  [PEvent.assignHyperparameters,
   PEvent.assignDistributions,
   PEvent.assignRules,
   PEvent.assignProfilerConfig,
   PEvent.constructEstimator,
   PEvent.fitSubmit false,
   PEvent.queryRegion,
   PEvent.queryJobName,
   PEvent.constructTrainingJobHandle,
   PEvent.waitForSysProfilingData,
   PEvent.refreshEventFileList,
   PEvent.constructTimelineCharts,
   PEvent.queryRuleOutputPath]

/-- Whether a profiling-notebook operation is one of the four configuration
constructions or the training submission. -/
def isConfigureOrSubmit : PEvent → Bool
  | PEvent.assignHyperparameters => true
  | PEvent.assignDistributions => true
  | PEvent.assignRules => true
  | PEvent.assignProfilerConfig => true
  | PEvent.fitSubmit _ => true
  | _ => false

/-- Whether a profiling-notebook operation is the training submission. -/
def isFitSubmit : PEvent → Bool
  | PEvent.fitSubmit _ => true
  | _ => false

/-- Whether an operation interacts with the submitted training job (reads
its name, polls its profiling data, or reads its artifact output path).
Purely local constructions and the region query do not touch the job. -/
def interactsWithJob : PEvent → Bool
  | PEvent.fitSubmit _ => true
  | PEvent.queryJobName => true
  | PEvent.waitForSysProfilingData => true
  | PEvent.refreshEventFileList => true
  | PEvent.queryRuleOutputPath => true
  | _ => false

/-- Whether an operation is a status/name/region/artifact-path query or a
polling call for profiling data. -/
def isQueryOrPoll : PEvent → Bool
  | PEvent.queryRegion => true
  | PEvent.queryJobName => true
  | PEvent.queryRuleOutputPath => true
  | PEvent.waitForSysProfilingData => true
  | PEvent.refreshEventFileList => true
  | _ => false

/-- The four configuration records of the profiling notebook. -/
inductive ConfigName where
  | hyperparametersCfg
  | distributionsCfg
  | rulesCfg
  | profilerConfigCfg
deriving DecidableEq

/-- The configuration records an operation constructs. -/
def constructsCfg : PEvent → List ConfigName
  | PEvent.assignHyperparameters => [ConfigName.hyperparametersCfg]
  | PEvent.assignDistributions => [ConfigName.distributionsCfg]
  | PEvent.assignRules => [ConfigName.rulesCfg]
  | PEvent.assignProfilerConfig => [ConfigName.profilerConfigCfg]
  | _ => []

/-- The configuration records an operation passes to an external call: the
`TensorFlow(...)` constructor receives all four; no other call receives
any. -/
def passesCfg : PEvent → List ConfigName
  | PEvent.constructEstimator =>
      [ConfigName.hyperparametersCfg, ConfigName.distributionsCfg,
       ConfigName.rulesCfg, ConfigName.profilerConfigCfg]
  | _ => []

/-- The assignment cell that constructs a given configuration record. -/
def assignEventOf : ConfigName → PEvent
  | ConfigName.hyperparametersCfg => PEvent.assignHyperparameters
  | ConfigName.distributionsCfg => PEvent.assignDistributions
  | ConfigName.rulesCfg => PEvent.assignRules
  | ConfigName.profilerConfigCfg => PEvent.assignProfilerConfig

/-- The observable operations of the JumpStart notebook, one constructor
per code statement that the temporal claims talk about. -/
inductive JEvent where
  | pipInstall
  | importsAndSession
  | assignDefaultModelId
  | downloadManifest
  | loadManifest
  | computeTcModels
  | constructDropdownWidget
  | displayDropdownWidget
  | readDropdownValue
  | assignTrainingDataPath
  | constructJumpStartEstimator
  | fitCall
  | deployCall
  | assignTexts
  | predictCall (text : String)
  | printResponse (text : String)
  | deletePredictorCall
deriving DecidableEq

/-- The JumpStart notebook's statements in source order; the inference loop
`for text in [text1, text2]` unrolls to a predict and a print per text. -/
def jumpstartTrace : List JEvent :=
  [JEvent.pipInstall,
   JEvent.importsAndSession,
   JEvent.assignDefaultModelId,
   JEvent.downloadManifest,
   JEvent.loadManifest,
   JEvent.computeTcModels,
   JEvent.constructDropdownWidget,
   JEvent.displayDropdownWidget,
   JEvent.readDropdownValue,
   JEvent.assignTrainingDataPath,
   JEvent.constructJumpStartEstimator,
   JEvent.fitCall,
   JEvent.deployCall,
   JEvent.assignTexts,
   JEvent.predictCall text1,
   JEvent.printResponse text1,
   JEvent.predictCall text2,
   JEvent.printResponse text2,
   JEvent.deletePredictorCall]

/-- Whether a JumpStart-notebook operation is an inference request. -/
def isPredictEvent : JEvent → Bool
  | JEvent.predictCall _ => true
  | _ => false

/-- Whether a JumpStart-notebook operation touches the deployed endpoint
(its deployment, an inference request against it, or its deletion). -/
def touchesEndpoint : JEvent → Bool
  | JEvent.deployCall => true
  | JEvent.predictCall _ => true
  | JEvent.deletePredictorCall => true
  | _ => false

/-- A failure an external SDK call can raise. -/
inductive SdkError where
  | badCredentials
  | jobFailure
  | quotaExceeded
  | malformedInput
  | other (msg : String)
deriving DecidableEq

/-- The remote SDK calls the notebooks issue whose failures the
error-handling claim is about. -/
inductive Call where
  | downloadManifestFile
  | fitJumpStart
  | deployEndpoint
  | predictRequest (text : String)
  | deleteEndpointCall
  | fitProfiling
  | waitSysProfilingData
deriving DecidableEq

/-- The remote calls of the JumpStart notebook, in source order. -/
def jumpstartCalls : List Call :=
  [Call.downloadManifestFile,
   Call.fitJumpStart,
   Call.deployEndpoint,
   Call.predictRequest text1,
   Call.predictRequest text2,
   Call.deleteEndpointCall]

/-- The remote calls of the profiling notebook, in source order. -/
def profilingCalls : List Call :=
  [Call.fitProfiling, Call.waitSysProfilingData]

/-- Sequential execution of a notebook's remote calls against an oracle
giving each call's outcome. The notebooks wrap no call in a handler, so a
raised error aborts the run and surfaces unchanged; the second component
records the calls actually issued. -/
def runCalls (oracle : Call → Except SdkError Unit) :
    List Call → Except SdkError Unit × List Call
  | [] => (Except.ok (), [])
  | c :: cs =>
    match oracle c with
    | Except.error e => (Except.error e, [c])
    | Except.ok _ => ((runCalls oracle cs).1, c :: (runCalls oracle cs).2)

theorem runCalls_trace_sublist (oracle : Call → Except SdkError Unit)
    (cs : List Call) : List.Sublist (runCalls oracle cs).2 cs := by
  induction cs with
  | nil => simp [runCalls]
  | cons c cs ih =>
    cases h : oracle c with
    | error e => simp [runCalls, h]
    | ok u => simpa [runCalls, h] using ih.cons₂ c

theorem runCalls_error (oracle : Call → Except SdkError Unit)
    (cs : List Call) (e : SdkError)
    (h : (runCalls oracle cs).1 = Except.error e) :
    ∃ c ∈ (runCalls oracle cs).2, oracle c = Except.error e := by
  induction cs with
  | nil => simp [runCalls] at h
  | cons c cs ih =>
    cases hc : oracle c with
    | error e2 =>
      simp only [runCalls, hc, Except.error.injEq] at h
      exact ⟨c, by simp [runCalls, hc], by rw [hc, h]⟩
    | ok u =>
      simp only [runCalls, hc] at h
      rcases ih h with ⟨c2, hc2, he2⟩
      exact ⟨c2, by simp [runCalls, hc]; exact Or.inr hc2, he2⟩

theorem runCalls_ok_iff (oracle : Call → Except SdkError Unit)
    (cs : List Call) :
    (runCalls oracle cs).1 = Except.ok () ↔
      ∀ c ∈ cs, oracle c = Except.ok () := by
  induction cs with
  | nil => simp [runCalls]
  | cons c cs ih =>
    cases hc : oracle c with
    | error e => simp [runCalls, hc]
    | ok u => cases u; simp [runCalls, hc, ih]

theorem runCalls_no_retry (oracle : Call → Except SdkError Unit)
    (cs : List Call) (hnd : cs.Nodup) (c : Call) :
    (runCalls oracle cs).2.count c ≤ 1 :=
  le_trans ((runCalls_trace_sublist oracle cs).count_le c)
    (List.nodup_iff_count_le_one.mp hnd c)

/-- C1: `tc_models_all_versions` is exactly the manifest's `model_id`
values that contain the substring "-tc-", kept in manifest order: the
substring test means genuine substring containment, the computed list is
the filter of the id list by that test, it is a sublist of the id list (so
in manifest order), and an id belongs to it iff it is an id of some
manifest record and contains "-tc-". -/
theorem c1_tc_models_all_versions_filter :
    (∀ s : String, hasTc s = true ↔
        ∃ pre post, s.data = pre ++ "-tc-".data ++ post)
    ∧ ∀ model_list : List ManifestEntry,
        tc_models_all_versions model_list =
          (model_list.map (fun m => m.model_id)).filter hasTc
        ∧ List.Sublist (tc_models_all_versions model_list)
            (model_list.map (fun m => m.model_id))
        ∧ ∀ s : String, s ∈ tc_models_all_versions model_list ↔
            ((∃ m ∈ model_list, m.model_id = s) ∧ hasTc s = true) := by
  refine ⟨fun s => containsSub_iff _ _,
    fun ml => ⟨tc_models_all_versions_eq ml, ?_, fun s => ?_⟩⟩
  · rw [tc_models_all_versions_eq]
    exact List.filter_sublist _
  · rw [tc_models_all_versions_eq, List.mem_filter, List.mem_map]

/-- C9: `tc_models` lists each element of `tc_models_all_versions` exactly
once and nothing else, in order of first occurrence: it has no duplicates,
its members are exactly those of `tc_models_all_versions`, and its entries
are strictly ordered by the index of their first occurrence there. -/
theorem c9_tc_models_dedup :
    ∀ model_list : List ManifestEntry,
      (tc_models model_list).Nodup
      ∧ (∀ s : String,
          s ∈ tc_models model_list ↔ s ∈ tc_models_all_versions model_list)
      ∧ (tc_models model_list).Pairwise
          (fun a b => firstIdx a (tc_models_all_versions model_list) <
            firstIdx b (tc_models_all_versions model_list)) := by
  intro ml
  refine ⟨?_, mem_tc_models_iff ml, ?_⟩
  · rw [tc_models_eq_dedupNew]
    exact nodup_dedupNew _ _
  · rw [tc_models_eq_dedupNew]
    exact pairwise_dedupNew _ _

/-- C10: the default model id contains "-tc-", so for every manifest that
includes it the default is among the filtered dropdown options and the
dropdown construction with that value and those options succeeds. -/
theorem c10_default_model_in_dropdown :
    hasTc model_id = true
    ∧ ∀ model_list : List ManifestEntry,
        (∃ m ∈ model_list, m.model_id = model_id) →
          model_id ∈ tc_models model_list
          ∧ (mkDropdown model_id (tc_models model_list)
              dropdownDescription).isSome = true := by
  have hdef : hasTc model_id = true := by decide
  refine ⟨hdef, fun ml hex => ?_⟩
  have hmem : model_id ∈ tc_models ml := by
    rw [mem_tc_models_iff, tc_models_all_versions_eq, List.mem_filter,
      List.mem_map]
    exact ⟨hex, hdef⟩
  exact ⟨hmem, by simp [mkDropdown, hmem]⟩

/-- C2 (counterexample): the model-selection step is not a pass-through of
the one external call it issues: on a manifest whose only id lacks "-tc-",
the step's result is empty while the downloaded id list is not. -/
theorem c2_counterexample_selection_transforms :
    ¬ selectionStepPassThrough := by
  intro h
  exact absurd (h [{ model_id := "vision-model" }]) (by decide)

/-- C2 (amended): the model-selection step is not a pass-through; its
result is the downloaded manifest's id list put through the local substring
filter and the order-preserving deduplication loop, and it equals the raw
downloaded id list exactly when that list is duplicate-free and every id
contains "-tc-". -/
theorem c2_amended_selection_filter_dedup :
    ∀ model_list : List ManifestEntry,
      tc_models model_list =
        dedupLoop [] ((model_list.map (fun m => m.model_id)).filter hasTc)
      ∧ (tc_models model_list = model_list.map (fun m => m.model_id) ↔
          ((model_list.map (fun m => m.model_id)).Nodup ∧
            ∀ s ∈ model_list.map (fun m => m.model_id), hasTc s = true)) := by
  intro ml
  constructor
  · rw [tc_models, tc_models_all_versions_eq]
  · constructor
    · intro h
      have hnodup : (tc_models ml).Nodup := by
        rw [tc_models_eq_dedupNew]
        exact nodup_dedupNew _ _
      refine ⟨h ▸ hnodup, fun s hs => ?_⟩
      have hmem : s ∈ tc_models ml := by
        rw [h]
        exact hs
      have hm2 := (mem_tc_models_iff ml s).mp hmem
      rw [tc_models_all_versions_eq, List.mem_filter] at hm2
      exact hm2.2
    · rintro ⟨hnd, hall⟩
      have hfil : (ml.map (fun m => m.model_id)).filter hasTc
          = ml.map (fun m => m.model_id) := List.filter_eq_self.mpr hall
      rw [tc_models, tc_models_all_versions_eq, hfil]
      have h2 := dedupLoop_of_nodup (ml.map (fun m => m.model_id)) []
        (by simpa using hnd)
      simpa using h2

/-- C3: in the profiling notebook the configuration cells and the single
submission occur in order (hyperparameters, then distributions, then rules,
then profiler config, then `fit`), there is exactly one submission and it
passes `wait=False` (non-blocking), and every operation after the
submission that interacts with the job is a status/name/region/
artifact-path query or a polling call for profiling data. -/
theorem c3_profiling_order_and_post_submit :
    profilingTrace.filter isConfigureOrSubmit =
      [PEvent.assignHyperparameters, PEvent.assignDistributions,
       PEvent.assignRules, PEvent.assignProfilerConfig,
       PEvent.fitSubmit false]
    ∧ profilingTrace.filter isFitSubmit = [PEvent.fitSubmit false]
    ∧ ((profilingTrace.dropWhile (fun e => !(isFitSubmit e))).tail).all
        (fun e => !(interactsWithJob e) || isQueryOrPoll e) = true := by
  refine ⟨by decide, by decide, by decide⟩

/-- C4: in the JumpStart notebook the inference requests are exactly one
for `text1` then one for `text2`, the endpoint is deployed once and deleted
once, nothing touches the endpoint before the deployment, every inference
request precedes the deletion, and nothing touches the endpoint after the
deletion. -/
theorem c4_jumpstart_endpoint_lifecycle :
    jumpstartTrace.filter isPredictEvent =
      [JEvent.predictCall text1, JEvent.predictCall text2]
    ∧ jumpstartTrace.count JEvent.deployCall = 1
    ∧ jumpstartTrace.count JEvent.deletePredictorCall = 1
    ∧ (jumpstartTrace.takeWhile (fun e => !(e == JEvent.deployCall))).all
        (fun e => !(touchesEndpoint e)) = true
    ∧ (jumpstartTrace.takeWhile
          (fun e => !(e == JEvent.deletePredictorCall))).filter
        isPredictEvent =
        [JEvent.predictCall text1, JEvent.predictCall text2]
    ∧ ((jumpstartTrace.dropWhile
          (fun e => !(e == JEvent.deletePredictorCall))).tail).all
        (fun e => !(touchesEndpoint e)) = true := by
  refine ⟨by decide, by decide, by decide, by decide, by decide, by decide⟩

/-- C5: the profiling configuration record carries the 500 millisecond
system monitoring interval and framework-profiling parameters asking for 10
steps, which (with the SDK's documented default start step) capture the
steps from 5 to 15. -/
theorem c5_profiler_config_fields :
    profiler_config.system_monitor_interval_millis = 500
    ∧ profiler_config.framework_profile_params.num_steps = 10
    ∧ profiler_config.framework_profile_params.startStep = 5
    ∧ profiler_config.framework_profile_params.endStep = 15 :=
  ⟨rfl, rfl, rfl, rfl⟩

/-- C6: the rule-output path is the concatenation of the estimator's output
path, the latest training job's name and the literal "/rule-output", in
that order with nothing inserted: its character sequence is the
concatenation of the three parts' characters, and its length the sum of
their lengths. -/
theorem c6_rule_output_path_concat :
    ∀ output_path job_name : String,
      (rule_output_path output_path job_name).data =
        output_path.data ++ job_name.data ++ "/rule-output".data
      ∧ (rule_output_path output_path job_name).length =
          output_path.length + job_name.length + 12 := by
  intro op jn
  refine ⟨rfl, ?_⟩
  show (op.data ++ jn.data ++ "/rule-output".data).length =
    op.data.length + jn.data.length + 12
  simp [List.length_append]
  omega

/-- C7: each of the four configuration records of the profiling notebook is
constructed by exactly one operation and passed to exactly one external
call (the estimator constructor), with the construction preceding the call,
and the estimator receives exactly the constructed values. -/
theorem c7_configs_constructed_once_passed_once :
    (∀ role : String,
      (estimator role).hyperparameters = hyperparameters
      ∧ (estimator role).distribution = distributions
      ∧ (estimator role).rules = rules
      ∧ (estimator role).profiler_config = profiler_config)
    ∧ ∀ c : ConfigName,
        profilingTrace.filter
          (fun e =>
            (constructsCfg e).contains c || (passesCfg e).contains c) =
          [assignEventOf c, PEvent.constructEstimator] := by
  refine ⟨fun role => ⟨rfl, rfl, rfl, rfl⟩, fun c => ?_⟩
  cases c <;> decide

/-- C8: running either notebook's remote calls against any oracle of SDK
outcomes, the run succeeds iff every call succeeds, any surfaced error is
exactly the error some issued call raised (re-raised unchanged, with no
fallback), and no call is issued more than once (no retries). -/
theorem c8_errors_pass_through :
    ∀ oracle : Call → Except SdkError Unit,
      ((runCalls oracle jumpstartCalls).1 = Except.ok () ↔
        ∀ c ∈ jumpstartCalls, oracle c = Except.ok ())
      ∧ (∀ e : SdkError,
          (runCalls oracle jumpstartCalls).1 = Except.error e →
            ∃ c ∈ (runCalls oracle jumpstartCalls).2,
              oracle c = Except.error e)
      ∧ (∀ c : Call, (runCalls oracle jumpstartCalls).2.count c ≤ 1)
      ∧ ((runCalls oracle profilingCalls).1 = Except.ok () ↔
          ∀ c ∈ profilingCalls, oracle c = Except.ok ())
      ∧ (∀ e : SdkError,
          (runCalls oracle profilingCalls).1 = Except.error e →
            ∃ c ∈ (runCalls oracle profilingCalls).2,
              oracle c = Except.error e)
      ∧ (∀ c : Call, (runCalls oracle profilingCalls).2.count c ≤ 1) := by
  intro oracle
  refine ⟨runCalls_ok_iff oracle jumpstartCalls,
    fun e => runCalls_error oracle jumpstartCalls e,
    fun c => runCalls_no_retry oracle jumpstartCalls (by decide) c,
    runCalls_ok_iff oracle profilingCalls,
    fun e => runCalls_error oracle profilingCalls e,
    fun c => runCalls_no_retry oracle profilingCalls (by decide) c⟩

end NB
